import Mathlib

/-!
Shallow embedding of the product-config validation engine (src/src/lib.rs).

The data model (ConfigItem, ConfigOption, Datatype, ...) and the validation
pipeline (Config.new, Config.validate and its helper checks) are translated
from the Rust source.  External collaborators are modelled as follows:

* Rust HashMap is modelled as a finite map function (HMap) whose insert
  overwrites the previous binding for a key; the source only inserts and
  looks up, it never iterates a map.
* The regex crate is modelled by a compiled Regex carrying its full-match
  language as a boolean predicate on strings; Regex.is_match reproduces the
  crate contract (a match anywhere inside the haystack), and pattern
  compilation is a parameter of Config.new.
* The semver crate is modelled on the numeric major.minor.patch fragment
  used throughout the spec and tests; pre-release/build metadata is not
  modelled.
* Rust numeric string parsing (i64, usize, bool, f64 FromStr) is modelled
  over Int/Nat/Bool/Rat with explicit two's-complement ranges; f64 is
  modelled exactly over finite decimal literals (no rounding, no
  inf/NaN forms) — no spec claim exercises a Float-typed option.
-/

namespace ProductConfig

/-- Rust HashMap, modelled as a finite map function; insert overwrites. -/
abbrev HMap (V : Type) : Type := String → Option V

def HMap.empty {V : Type} : HMap V := fun _ => none

def HMap.insert {V : Type} (m : HMap V) (k : String) (v : V) : HMap V :=
  fun q => if q = k then some v else m q

/-- A compiled regex of the regex crate, modelled by the language of strings
the whole pattern matches. -/
structure Regex where
  fullMatch : String → Bool

/-- Rust regex crate is_match: true iff the pattern matches anywhere inside
the haystack, i.e. some contiguous substring is in the pattern's language. -/
def Regex.is_match (r : Regex) (s : String) : Bool :=
  s.data.tails.any fun suffix => suffix.inits.any fun sub => r.fullMatch (String.mk sub)

/-- Modelled from the spec (section 7) and the constructions in lib.rs: the
error enum of the repository's error.rs module, which is not under src/.
Variant names and fields are exactly those constructed in lib.rs; the
VersionParseError variant wraps the unparseable version text (the source
wraps the semver crate's parse error via the question-mark operator). -/
inductive Error where
  | ConfigSettingNotFound (name : String)
  | EmptyRegexPattern (unit : String)
  | InvalidRegexPattern (unit : String) (regex : String)
  | ConfigOptionNotFound (option_name : String)
  | VersionParseError (version : String)
  | VersionNotSupported (option_name : String) (product_version : String) (required_version : String)
  | VersionDeprecated (option_name : String) (product_version : String) (deprecated_version : String)
  | ConfigValueMissing (option_name : String)
  | DatatypeNotMatching (option_name : String) (value : String) (datatype : String)
  | ConfigValueOutOfBounds (option_name : String) (received : String) (expected : String)
  | UnitNotProvided (option_name : String)
  | UnitSettingNotFound (option_name : String) (unit : String)
  | DatatypeRegexNotMatching (option_name : String) (value : String)
  | ConfigValueNotInAllowedValues (option_name : String) (value : String)
      (allowed_values : List String)
deriving DecidableEq

/-- Digits of a decimal number, most significant first; none when the list is
empty or holds a non-digit.  Leading zeros are accepted (as Rust FromStr does). -/
def natOfDigits (cs : List Char) : Option Nat :=
  if cs.isEmpty then none
  else
    cs.foldl
      (fun acc c =>
        match acc with
        | none => none
        | some n => if c.isDigit then some (n * 10 + (c.toNat - 48)) else none)
      (some 0)

/-- Split a character list on every occurrence of sep (empty chunks kept). -/
def splitOnChar (sep : Char) : List Char → List (List Char)
  | [] => [[]]
  | c :: rest =>
    if c = sep then [] :: splitOnChar sep rest
    else
      match splitOnChar sep rest with
      | [] => [[c]]
      | g :: gs => (c :: g) :: gs

/-- A semver numeric identifier: digits only, no leading zero (semver rule). -/
def parseNumericIdent : List Char → Option Nat
  | [] => none
  | ['0'] => some 0
  | '0' :: _ :: _ => none
  | cs => natOfDigits cs

/-- Modelled from the spec (section 4.3): the semver crate's Version, on the
numeric major.minor.patch fragment used by the spec and the tests. -/
structure Version where
  major : Nat
  minor : Nat
  patch : Nat
deriving DecidableEq

def Version.parse (s : String) : Option Version :=
  match splitOnChar '.' s.data with
  | [a, b, c] =>
    match parseNumericIdent a, parseNumericIdent b, parseNumericIdent c with
    | some x, some y, some z => some ⟨x, y, z⟩
    | _, _, _ => none
  | _ => none

/-- Strict semver order on the numeric fragment: lexicographic. -/
def Version.lt (a b : Version) : Bool :=
  Nat.blt a.major b.major ||
    (a.major == b.major && (Nat.blt a.minor b.minor ||
      (a.minor == b.minor && Nat.blt a.patch b.patch)))

def Version.le (a b : Version) : Bool :=
  Version.lt a b || decide (a = b)

def Version.toString (v : Version) : String :=
  Nat.repr v.major ++ "." ++ Nat.repr v.minor ++ "." ++ Nat.repr v.patch

/-- Rust bool FromStr: exactly the literals true and false. -/
def boolFromStr (s : String) : Option Bool :=
  if s = "true" then some true
  else if s = "false" then some false
  else none

/-- Rust i64 FromStr: optional sign, decimal digits, two's-complement range. -/
def i64FromStr (s : String) : Option Int :=
  let signed : Option Int :=
    match s.data with
    | '+' :: rest => (natOfDigits rest).map (fun n => (n : Int))
    | '-' :: rest => (natOfDigits rest).map (fun n => -(n : Int))
    | cs => (natOfDigits cs).map (fun n => (n : Int))
  match signed with
  | some v => if -(2 ^ 63) ≤ v ∧ v ≤ 2 ^ 63 - 1 then some v else none
  | none => none

/-- Rust usize FromStr on a 64-bit target: optional plus sign, digits, range. -/
def usizeFromStr (s : String) : Option Nat :=
  let core : Option Nat :=
    match s.data with
    | '+' :: rest => natOfDigits rest
    | cs => natOfDigits cs
  match core with
  | some n => if n < 2 ^ 64 then some n else none
  | none => none

/-- Mantissa of a decimal float literal: digits, optionally split by one dot
(at least one digit on one of the two sides). -/
def mantissaRat (cs : List Char) : Option Rat :=
  match splitOnChar '.' cs with
  | [ip] => (natOfDigits ip).map (fun n => (n : Rat))
  | [ip, fp] =>
    if ip.isEmpty && fp.isEmpty then none
    else
      match (if ip.isEmpty then some 0 else natOfDigits ip),
            (if fp.isEmpty then some 0 else natOfDigits fp) with
      | some i, some f => some ((i : Rat) + (f : Rat) / (10 : Rat) ^ fp.length)
      | _, _ => none
  | _ => none

/-- Rust f64 FromStr, modelled exactly over rationals for finite decimal
literals with optional exponent; the inf/NaN forms and rounding to binary
doubles are not modelled (no spec claim exercises a Float-typed option). -/
def f64FromStr (s : String) : Option Rat :=
  let cs := s.data.map Char.toLower
  let signBody : Int × List Char :=
    match cs with
    | '+' :: rest => (1, rest)
    | '-' :: rest => (-1, rest)
    | _ => (1, cs)
  let parts : List Char × Option (List Char) :=
    match splitOnChar 'e' signBody.2 with
    | [m] => (m, none)
    | [m, e] => (m, some e)
    | _ => ([], none)
  match mantissaRat parts.1 with
  | none => none
  | some m =>
    match parts.2 with
    | none => some ((signBody.1 : Rat) * m)
    | some es =>
      let ex : Option Int :=
        match es with
        | '+' :: rest => (natOfDigits rest).map (fun n => (n : Int))
        | '-' :: rest => (natOfDigits rest).map (fun n => -(n : Int))
        | ds => (natOfDigits ds).map (fun n => (n : Int))
      match ex with
      | none => none
      | some e => some ((signBody.1 : Rat) * m * (10 : Rat) ^ e)

/-- The capabilities the Rust generic bound-check context requires of a
scalar type: FromStr, PartialOrd, Display, plus std::any::type_name. -/
structure Scalar (T : Type) where
  fromStr : String → Option T
  lt : T → T → Bool
  display : T → String
  typeName : String

def boolScalar : Scalar Bool where
  fromStr := boolFromStr
  lt := fun a b => !a && b
  display := fun b => if b then "true" else "false"
  typeName := "bool"

def i64Scalar : Scalar Int where
  fromStr := i64FromStr
  lt := fun a b => decide (a < b)
  display := fun v => toString v
  typeName := "i64"

def usizeScalar : Scalar Nat where
  fromStr := usizeFromStr
  lt := fun a b => Nat.blt a b
  display := fun n => Nat.repr n
  typeName := "usize"

def f64Scalar : Scalar Rat where
  fromStr := f64FromStr
  lt := fun a b => decide (a < b)
  display := fun q => toString q
  typeName := "f64"

/-- represents different config identifier types (conf, env, cli). -/
inductive OptionKind where
  | Conf
  | Env
  | Cli
deriving DecidableEq

/-- represents one unique identifier for a config option. -/
structure OptionName where
  name : String
  kind : OptionKind
deriving DecidableEq

/-- represents the default value a config option may have. -/
structure DefaultValue where
  from_version : Option String
  to_version : Option String
  value : String
deriving DecidableEq

/-- represents all supported data types. -/
inductive Datatype where
  | Bool
  | Integer (min : Option String) (max : Option String) (unit : Option String)
      (accepted_units : Option (List String)) (default_unit : Option String)
  | Float (min : Option String) (max : Option String) (unit : Option String)
      (accepted_units : Option (List String)) (default_unit : Option String)
  | String (min : Option String) (max : Option String) (unit : Option String)
      (accepted_units : Option (List String)) (default_unit : Option String)
  | Array (unit : Option String) (accepted_units : Option (List String))
      (default_unit : Option String)
deriving DecidableEq

/-- represents all supported importance parameters. -/
inductive Importance where
  | Optional
  | Required
deriving DecidableEq

/-- represents one config entry for a given config property or environment
variable (the deserialized shape; deserialization itself is external). -/
structure ConfigOption where
  option_names : List OptionName
  default_value : Option (List DefaultValue)
  datatype : Datatype
  allowed_values : Option (List String)
  as_of_version : String
  deprecated_since : Option String
  deprecated_for : Option (List String)
  importance : Option Importance
  tags : Option (List String)
  additional_doc : Option (List String)
  description : Option String
deriving DecidableEq

/-- represents the config unit (source struct Unit; renamed, the Lean name
Unit is taken by the unit type). -/
structure UnitDef where
  name : String
  regex : Option String
deriving DecidableEq

/-- represents config settings like unit and regex specification. -/
structure ConfigSetting where
  unit : List UnitDef

/-- represents the root element structure of JSON/YAML documents. -/
structure ConfigItem where
  config_settings : ConfigSetting
  config_options : List ConfigOption

/-- The engine: unit patterns and the option index. -/
structure Config where
  config_setting_units : HMap Regex
  config_options : HMap ConfigOption

/-- The unit-table construction loop of Config::new: name must be non-empty,
a regex must be present and non-empty and must compile; first failure aborts. -/
def buildUnits (compile : String → Option Regex) :
    List UnitDef → HMap Regex → Except Error (HMap Regex)
  | [], acc => .ok acc
  | u :: rest, acc =>
    if u.name.isEmpty then .error (.ConfigSettingNotFound "unit")
    else
      match u.regex with
      | none => .error (.EmptyRegexPattern u.name)
      | some pat =>
        if pat.isEmpty then .error (.EmptyRegexPattern u.name)
        else
          match compile pat with
          | none => .error (.InvalidRegexPattern u.name pat)
          | some r => buildUnits compile rest (HMap.insert acc u.name r)

/-- Config::new: builds the option index (every alias name of every option is
inserted, later insertions overwriting earlier ones) and the unit table.
The schema reader is external; its already-read result is the argument, and
regex compilation (the regex crate) is the compile parameter. -/
def Config.new (compile : String → Option Regex) (root : ConfigItem) : Except Error Config :=
  let config_options_map : HMap ConfigOption :=
    root.config_options.foldl
      (fun m config_option =>
        config_option.option_names.foldl
          (fun m option_name => HMap.insert m option_name.name config_option) m)
      HMap.empty
  match buildUnits compile root.config_settings.unit HMap.empty with
  | .error e => .error e
  | .ok units => .ok ⟨units, config_options_map⟩

/-- fn parse: FromStr parse, failure reported as DatatypeNotMatching with
std::any::type_name of the scalar. -/
def Config.parse {T : Type} (_cfg : Config) (S : Scalar T) (option_name to_parse : String) :
    Except Error T :=
  match S.fromStr to_parse with
  | some v => .ok v
  | none => .error (.DatatypeNotMatching option_name to_parse S.typeName)

/-- fn min_bound: value violates the lower bound. -/
def Config.min_bound {T : Type} (S : Scalar T) (val min : T) : Bool :=
  S.lt val min

/-- fn max_bound: value violates the upper bound (val is greater than it). -/
def Config.max_bound {T : Type} (S : Scalar T) (val min : T) : Bool :=
  S.lt min val

/-- fn check_bound: when a bound string is configured, parse it as the same
scalar and fail OutOfBounds when the violation predicate holds. -/
def Config.check_bound {T : Type} (cfg : Config) (S : Scalar T) (option_name : String)
    (value : T) (bound : Option String) (check : T → T → Bool) : Except Error T :=
  match bound with
  | none => .ok value
  | some b =>
    match cfg.parse S option_name b with
    | .error e => .error e
    | .ok bv =>
      if check value bv then
        .error (.ConfigValueOutOfBounds option_name (S.display value) (S.display bv))
      else .ok value

/-- fn check_datatype_scalar: non-empty, parse, min bound, max bound. -/
def Config.check_datatype_scalar {T : Type} (cfg : Config) (S : Scalar T)
    (option_name option_value : String) (min max : Option String) : Except Error T :=
  if option_value.isEmpty then .error (.ConfigValueMissing option_name)
  else
    match cfg.parse S option_name option_value with
    | .error e => .error e
    | .ok val =>
      match cfg.check_bound S option_name val min (Config.min_bound S) with
      | .error e => .error e
      | .ok _ =>
        match cfg.check_bound S option_name val max (Config.max_bound S) with
        | .error e => .error e
        | .ok _ => .ok val

/-- fn check_datatype_string: non-empty; the two length-bound checks are
computed over the byte length but their Results are DISCARDED exactly as in
the source (no question-mark operator on either check_bound call); then the
unit must be provided, resolve in the unit table, and is_match must hold. -/
def Config.check_datatype_string (cfg : Config) (option_name option_value : String)
    (min max unit : Option String) : Except Error String :=
  if option_value.isEmpty then .error (.ConfigValueMissing option_name)
  else
    let len : Nat := option_value.utf8ByteSize
    let _ := cfg.check_bound usizeScalar option_name len min (Config.min_bound usizeScalar)
    let _ := cfg.check_bound usizeScalar option_name len max (Config.max_bound usizeScalar)
    match unit with
    | none => .error (.UnitNotProvided option_name)
    | some u =>
      match cfg.config_setting_units u with
      | none => .error (.UnitSettingNotFound option_name u)
      | some regex =>
        if regex.is_match option_value then .ok option_value
        else .error (.DatatypeRegexNotMatching option_name option_value)

/-- fn check_datatype: dispatch on the declared datatype. -/
def Config.check_datatype (cfg : Config) (option_name option_value : String)
    (datatype : Datatype) : Except Error Unit :=
  match datatype with
  | .Bool =>
    match cfg.check_datatype_scalar boolScalar option_name option_value none none with
    | .error e => .error e
    | .ok _ => .ok ()
  | .Integer min max _ _ _ =>
    match cfg.check_datatype_scalar i64Scalar option_name option_value min max with
    | .error e => .error e
    | .ok _ => .ok ()
  | .Float min max _ _ _ =>
    match cfg.check_datatype_scalar f64Scalar option_name option_value min max with
    | .error e => .error e
    | .ok _ => .ok ()
  | .String min max unit _ _ =>
    match cfg.check_datatype_string option_name option_value min max unit with
    | .error e => .error e
    | .ok _ => .ok ()
  | .Array _ _ _ => .ok ()

/-- fn check_version_supported_or_deprecated: parse product and option
versions; as-of gate first, then the deprecation gate. -/
def Config.check_version_supported_or_deprecated (_cfg : Config) (option_name : String)
    (product_version option_version : String) (deprecated_since : Option String) :
    Except Error Unit :=
  match Version.parse product_version with
  | none => .error (.VersionParseError product_version)
  | some pv =>
    match Version.parse option_version with
    | none => .error (.VersionParseError option_version)
    | some ov =>
      if Version.lt pv ov then
        .error (.VersionNotSupported option_name pv.toString ov.toString)
      else
        match deprecated_since with
        | none => .ok ()
        | some ds =>
          match Version.parse ds with
          | none => .error (.VersionParseError ds)
          | some dv =>
            if Version.le dv pv then
              .error (.VersionDeprecated option_name pv.toString dv.toString)
            else .ok ()

/-- fn check_allowed_values: a present, non-empty allow-list must contain
the value. -/
def Config.check_allowed_values (option_name option_value : String)
    (allowed_values : Option (List String)) : Except Error Unit :=
  match allowed_values with
  | none => .ok ()
  | some l =>
    if !l.isEmpty && !l.contains option_value then
      .error (.ConfigValueNotInAllowedValues option_name option_value l)
    else .ok ()

/-- fn validate: index lookup, version gate, datatype check, allowed-values
gate, each short-circuiting; on success the input value is returned. -/
def Config.validate (cfg : Config) (product_version option_name option_value : String) :
    Except Error String :=
  match cfg.config_options option_name with
  | none => .error (.ConfigOptionNotFound option_name)
  | some option =>
    match cfg.check_version_supported_or_deprecated option_name product_version
        option.as_of_version option.deprecated_since with
    | .error e => .error e
    | .ok _ =>
      match cfg.check_datatype option_name option_value option.datatype with
      | .error e => .error e
      | .ok _ =>
        match Config.check_allowed_values option_name option_value option.allowed_values with
        | .error e => .error e
        | .ok _ => .ok option_value

/-! ### Concrete fixtures, mirroring the schema of the repository's tests -/

/-- The integer option of the test schema: min 0, max 65535, as of 0.5.0. -/
def optPort : ConfigOption where
  option_names := [⟨"ENV_VAR_INTEGER_PORT_MIN_MAX", .Env⟩]
  default_value := none
  datatype := .Integer (some "0") (some "65535") (some "port") none none
  allowed_values := none
  as_of_version := "0.5.0"
  deprecated_since := none
  deprecated_for := none
  importance := none
  tags := none
  additional_doc := none
  description := none

/-- A compiled pattern whose full-match language is exactly the one word w
(what the regex crate produces for a literal pattern without metacharacters). -/
def litRegex (w : String) : Regex := ⟨fun s => s = w⟩

/-- A compiled pattern matching every string. -/
def anyRegex : Regex := ⟨fun _ => true⟩

/-- A string option with a minimum length bound of 5 and unit u. -/
def optShortString : ConfigOption where
  option_names := [⟨"conf.property.string.short", .Conf⟩]
  default_value := none
  datatype := .String (some "5") none (some "u") none none
  allowed_values := none
  as_of_version := "0.1.0"
  deprecated_since := none
  deprecated_for := none
  importance := none
  tags := none
  additional_doc := none
  description := none

/-- A string option with no bounds and unit u. -/
def optPlainString : ConfigOption where
  option_names := [⟨"conf.property.string.plain", .Conf⟩]
  default_value := none
  datatype := .String none none (some "u") none none
  allowed_values := none
  as_of_version := "0.1.0"
  deprecated_since := none
  deprecated_for := none
  importance := none
  tags := none
  additional_doc := none
  description := none

/-- A bool option. -/
def optBool : ConfigOption where
  option_names := [⟨"ENV_VAR_BOOL", .Env⟩]
  default_value := none
  datatype := .Bool
  allowed_values := none
  as_of_version := "0.1.0"
  deprecated_since := none
  deprecated_for := none
  importance := none
  tags := none
  additional_doc := none
  description := none

/-- An option deprecated since 1.0.0 but only introduced as of 2.0.0. -/
def optLateDeprecated : ConfigOption where
  option_names := [⟨"late.deprecated", .Conf⟩]
  default_value := none
  datatype := .Bool
  allowed_values := none
  as_of_version := "2.0.0"
  deprecated_since := some "1.0.0"
  deprecated_for := none
  importance := none
  tags := none
  additional_doc := none
  description := none

/-- The deprecated option of the test schema (as of 0.1.0, deprecated 0.4.0). -/
def optDeprecated : ConfigOption where
  option_names := [⟨"conf.property.string.deprecated", .Conf⟩]
  default_value := none
  datatype := .Integer (some "0") (some "65535") none none none
  allowed_values := none
  as_of_version := "0.1.0"
  deprecated_since := some "0.4.0"
  deprecated_for := none
  importance := none
  tags := none
  additional_doc := none
  description := none

/-- The allow-list option of the test schema. -/
def optAllowed : ConfigOption where
  option_names := [⟨"ENV_VAR_ALLOWED_VALUES", .Env⟩]
  default_value := none
  datatype := .String none none (some "u") none none
  allowed_values := some ["allowed_value1", "allowed_value2", "allowed_value3"]
  as_of_version := "0.1.0"
  deprecated_since := none
  deprecated_for := none
  importance := none
  tags := none
  additional_doc := none
  description := none

/-- A fixture engine holding the options above; unit u accepts everything. -/
def cfgTest : Config where
  config_setting_units := HMap.insert HMap.empty "u" anyRegex
  config_options :=
    HMap.insert
      (HMap.insert
        (HMap.insert
          (HMap.insert
            (HMap.insert
              (HMap.insert HMap.empty "ENV_VAR_INTEGER_PORT_MIN_MAX" optPort)
              "conf.property.string.short" optShortString)
            "conf.property.string.plain" optPlainString)
          "ENV_VAR_BOOL" optBool)
        "late.deprecated" optLateDeprecated)
      "conf.property.string.deprecated" optDeprecated

/-- The fixture engine for the allow-list and substring-match cases: unit u
compiled from a literal pattern a. -/
def cfgLit : Config where
  config_setting_units := HMap.insert HMap.empty "u" (litRegex "a")
  config_options :=
    HMap.insert (HMap.insert HMap.empty "ENV_VAR_ALLOWED_VALUES" optAllowed)
      "conf.property.string.plain" optPlainString

/-- Errors of the VersionNotSupported family (used to state that the stages
after the as-of gate never produce one). -/
def isVNS : Error → Bool
  | .VersionNotSupported _ _ _ => true
  | _ => false

/-- An option definition lists the given alias name among its option_names. -/
def optionMentions (aname : String) (o : ConfigOption) : Bool :=
  o.option_names.any (fun n => n.name == aname)

example : Version.parse "1.0.0" = some ⟨1, 0, 0⟩ := rfl
example : Version.parse "0.5.0" = some ⟨0, 5, 0⟩ := rfl
example : Version.parse "" = none := rfl
example : Version.parse "1.0" = none := rfl
example : cfgTest.validate "1.0.0" "ENV_VAR_INTEGER_PORT_MIN_MAX" "1000" = .ok "1000" := rfl
example : cfgTest.validate "1.0.0" "ENV_VAR_INTEGER_PORT_MIN_MAX" "abc"
    = .error (.DatatypeNotMatching "ENV_VAR_INTEGER_PORT_MIN_MAX" "abc" "i64") := rfl
example : cfgTest.validate "1.0.0" "ENV_VAR_INTEGER_PORT_MIN_MAX" "-1"
    = .error (.ConfigValueOutOfBounds "ENV_VAR_INTEGER_PORT_MIN_MAX" "-1" "0") := rfl
example : cfgTest.validate "1.0.0" "ENV_VAR_INTEGER_PORT_MIN_MAX" "100000"
    = .error (.ConfigValueOutOfBounds "ENV_VAR_INTEGER_PORT_MIN_MAX" "100000" "65535") := rfl
example : cfgTest.validate "0.1.0" "ENV_VAR_INTEGER_PORT_MIN_MAX" "1000"
    = .error (.VersionNotSupported "ENV_VAR_INTEGER_PORT_MIN_MAX" "0.1.0" "0.5.0") := rfl
example : cfgTest.validate "0.5.0" "conf.property.string.deprecated" "1000"
    = .error (.VersionDeprecated "conf.property.string.deprecated" "0.5.0" "0.4.0") := rfl
example : cfgTest.validate "1.0.0" "conf.property.string.short" "ab" = .ok "ab" := rfl
example : cfgTest.validate "1.0.0" "ENV_VAR_BOOL" ""
    = .error (.ConfigValueMissing "ENV_VAR_BOOL") := rfl
example : cfgTest.validate "1.0.0" "ENV_VAR_BOOL" "xyz"
    = .error (.DatatypeNotMatching "ENV_VAR_BOOL" "xyz" "bool") := rfl
example : cfgTest.validate "1.0.0" "ENV_VAR_BOOL" "true" = .ok "true" := rfl
example : cfgTest.validate "1.5.0" "late.deprecated" "true"
    = .error (.VersionNotSupported "late.deprecated" "1.5.0" "2.0.0") := rfl
example : cfgLit.validate "1.0.0" "conf.property.string.plain" "xa" = .ok "xa" := rfl
example : cfgLit.validate "1.0.0" "conf.property.string.plain" "xb"
    = .error (.DatatypeRegexNotMatching "conf.property.string.plain" "xb") := rfl
example : cfgLit.validate "0.5.0" "ENV_VAR_ALLOWED_VALUES" "abc"
    = .error (.ConfigValueNotInAllowedValues "ENV_VAR_ALLOWED_VALUES" "abc"
        ["allowed_value1", "allowed_value2", "allowed_value3"]) := rfl
example : ("ab" : String).utf8ByteSize = 2 := rfl
example : Config.check_bound cfgTest usizeScalar "conf.property.string.short" 2 (some "5")
    (Config.min_bound usizeScalar)
    = .error (.ConfigValueOutOfBounds "conf.property.string.short" "2" "5") := rfl

/-! ### Shape lemmas: which errors each pipeline stage can produce -/

theorem parse_not_vns {T : Type} {cfg : Config} {S : Scalar T} {n s : String} {e : Error}
    (h : Config.parse cfg S n s = .error e) : isVNS e = false := by
  unfold Config.parse at h
  split at h
  · exact Except.noConfusion h
  · injection h with h2
    subst h2
    rfl

theorem check_bound_not_vns {T : Type} {cfg : Config} {S : Scalar T} {n : String} {v : T}
    {b : Option String} {chk : T → T → Bool} {e : Error}
    (h : cfg.check_bound S n v b chk = .error e) : isVNS e = false := by
  unfold Config.check_bound at h
  split at h
  · exact Except.noConfusion h
  · split at h
    · next e2 heq =>
      injection h with h2
      subst h2
      exact parse_not_vns heq
    · split at h
      · injection h with h2
        subst h2
        rfl
      · exact Except.noConfusion h

theorem check_datatype_scalar_not_vns {T : Type} {cfg : Config} {S : Scalar T}
    {n v : String} {mn mx : Option String} {e : Error}
    (h : cfg.check_datatype_scalar S n v mn mx = .error e) : isVNS e = false := by
  unfold Config.check_datatype_scalar at h
  split at h
  · injection h with h2
    subst h2
    rfl
  · split at h
    · next e2 heq =>
      injection h with h2
      subst h2
      exact parse_not_vns heq
    · split at h
      · next e2 heq =>
        injection h with h2
        subst h2
        exact check_bound_not_vns heq
      · split at h
        · next e2 heq =>
          injection h with h2
          subst h2
          exact check_bound_not_vns heq
        · exact Except.noConfusion h

theorem check_datatype_string_not_vns {cfg : Config} {n v : String}
    {mn mx u : Option String} {e : Error}
    (h : cfg.check_datatype_string n v mn mx u = .error e) : isVNS e = false := by
  simp only [Config.check_datatype_string] at h
  split at h
  · injection h with h2
    subst h2
    rfl
  · split at h
    · injection h with h2
      subst h2
      rfl
    · split at h
      · injection h with h2
        subst h2
        rfl
      · split at h
        · exact Except.noConfusion h
        · injection h with h2
          subst h2
          rfl

theorem check_datatype_not_vns {cfg : Config} {n v : String} {dt : Datatype} {e : Error}
    (h : cfg.check_datatype n v dt = .error e) : isVNS e = false := by
  unfold Config.check_datatype at h
  split at h
  · split at h
    · next e2 heq =>
      injection h with h2
      subst h2
      exact check_datatype_scalar_not_vns heq
    · exact Except.noConfusion h
  · split at h
    · next e2 heq =>
      injection h with h2
      subst h2
      exact check_datatype_scalar_not_vns heq
    · exact Except.noConfusion h
  · split at h
    · next e2 heq =>
      injection h with h2
      subst h2
      exact check_datatype_scalar_not_vns heq
    · exact Except.noConfusion h
  · split at h
    · next e2 heq =>
      injection h with h2
      subst h2
      exact check_datatype_string_not_vns heq
    · exact Except.noConfusion h
  · exact Except.noConfusion h

theorem check_allowed_values_cases (n v : String) (a : Option (List String)) :
    Config.check_allowed_values n v a = .ok () ∨
    ∃ l, a = some l ∧ Config.check_allowed_values n v a
        = .error (.ConfigValueNotInAllowedValues n v l) := by
  unfold Config.check_allowed_values
  split
  · exact Or.inl rfl
  · split
    · exact Or.inr ⟨_, rfl, rfl⟩
    · exact Or.inl rfl

theorem check_allowed_values_not_vns {n v : String} {a : Option (List String)} {e : Error}
    (h : Config.check_allowed_values n v a = .error e) : isVNS e = false := by
  rcases check_allowed_values_cases n v a with hc | ⟨l, _, hc⟩
  · rw [h] at hc
    exact Except.noConfusion hc
  · rw [h] at hc
    injection hc with h2
    subst h2
    rfl

theorem version_check_after_gate_not_vns {cfg : Config} {n pvs ovs : String}
    {ds : Option String} {pv ov : Version}
    (hpv : Version.parse pvs = some pv) (hov : Version.parse ovs = some ov)
    (hlt : Version.lt pv ov = false) {e : Error}
    (h : cfg.check_version_supported_or_deprecated n pvs ovs ds = .error e) :
    isVNS e = false := by
  simp only [Config.check_version_supported_or_deprecated, hpv, hov, hlt,
    Bool.false_eq_true, if_false] at h
  split at h
  · exact Except.noConfusion h
  · split at h
    · injection h with h2
      subst h2
      rfl
    · split at h
      · injection h with h2
        subst h2
        rfl
      · exact Except.noConfusion h

theorem check_bound_some {T : Type} (cfg : Config) (S : Scalar T) (n : String) (x b : T)
    (bs : String) (chk : T → T → Bool) (hb : S.fromStr bs = some b) :
    cfg.check_bound S n x (some bs) chk =
      if chk x b then .error (.ConfigValueOutOfBounds n (S.display x) (S.display b))
      else .ok x := by
  simp only [Config.check_bound, Config.parse, hb]

theorem check_datatype_scalar_parse_some {T : Type} (cfg : Config) (S : Scalar T)
    (n v : String) (mn mx : Option String) (x : T)
    (hemp : v.isEmpty = false) (hx : S.fromStr v = some x) :
    cfg.check_datatype_scalar S n v mn mx =
      (match cfg.check_bound S n x mn (Config.min_bound S) with
      | .error e => .error e
      | .ok _ =>
        match cfg.check_bound S n x mx (Config.max_bound S) with
        | .error e => .error e
        | .ok _ => .ok x) := by
  simp only [Config.check_datatype_scalar, Config.parse, hemp, Bool.false_eq_true, if_false, hx]

/-- Under a found option and a passing version gate, validate reduces to the
datatype stage followed by the allowed-values stage. -/
theorem validate_after_version (cfg : Config) (pvs name value : String) (opt : ConfigOption)
    (hopt : cfg.config_options name = some opt)
    (hver : cfg.check_version_supported_or_deprecated name pvs opt.as_of_version
        opt.deprecated_since = .ok ()) :
    cfg.validate pvs name value =
      (match cfg.check_datatype name value opt.datatype with
      | .error e => .error e
      | .ok _ =>
        match Config.check_allowed_values name value opt.allowed_values with
        | .error e => .error e
        | .ok _ => .ok value) := by
  simp only [Config.validate, hopt, hver]

/-! ### Claim theorems -/

/-- C1: the spec requires a string value whose length violates a configured
min (or max) bound to fail with OutOfBounds through the shared bound-check
routine, but the source discards the Result of both check_bound calls
(lib.rs lines 428-430 lack the question-mark operator), so validate succeeds:
the value ab has byte length 2, the configured min is 5, the discarded
check_bound call would have produced exactly the OutOfBounds error, and yet
validate returns the value. -/
theorem string_min_length_not_enforced :
    optShortString.datatype = .String (some "5") none (some "u") none none ∧
    ("ab" : String).utf8ByteSize = 2 ∧
    Config.check_bound cfgTest usizeScalar "conf.property.string.short" 2 (some "5")
        (Config.min_bound usizeScalar)
      = .error (.ConfigValueOutOfBounds "conf.property.string.short" "2" "5") ∧
    cfgTest.validate "1.0.0" "conf.property.string.short" "ab" = .ok "ab" :=
  ⟨rfl, rfl, rfl, rfl⟩

/-- C2 counterexample: an option deprecated since 1.0.0 but introduced only
as of 2.0.0, validated at product version 1.5.0 (which is at or past the
deprecation version and parseable), fails with VersionNotSupported, not with
VersionDeprecated: the as-of gate runs first. -/
theorem deprecated_claim_counterexample :
    Version.parse "1.0.0" = some ⟨1, 0, 0⟩ ∧
    Version.parse "1.5.0" = some ⟨1, 5, 0⟩ ∧
    Version.le ⟨1, 0, 0⟩ ⟨1, 5, 0⟩ = true ∧
    cfgTest.config_options "late.deprecated" = some optLateDeprecated ∧
    optLateDeprecated.deprecated_since = some "1.0.0" ∧
    cfgTest.validate "1.5.0" "late.deprecated" "true"
      = .error (.VersionNotSupported "late.deprecated" "1.5.0" "2.0.0") ∧
    cfgTest.validate "1.5.0" "late.deprecated" "true"
      ≠ .error (.VersionDeprecated "late.deprecated" "1.5.0" "1.0.0") :=
  ⟨rfl, rfl, rfl, rfl, rfl, rfl,
    fun h => Error.noConfusion (Except.error.inj h)⟩

/-- C2 (amended): for an option with deprecated_since = D (D parseable) and
every parseable product_version that is at or past D and also at or past the
option's (parseable) as_of_version, validate fails with VersionDeprecated
carrying the option name, product version and deprecated version, for every
option_value, including values that would fail the later checks. -/
theorem deprecated_hard_failure (cfg : Config) (pvs name value ds : String)
    (opt : ConfigOption) (pv av dv : Version)
    (hopt : cfg.config_options name = some opt)
    (hpv : Version.parse pvs = some pv)
    (hav : Version.parse opt.as_of_version = some av)
    (hgate : Version.lt pv av = false)
    (hds : opt.deprecated_since = some ds)
    (hdv : Version.parse ds = some dv)
    (hle : Version.le dv pv = true) :
    cfg.validate pvs name value
      = .error (.VersionDeprecated name pv.toString dv.toString) := by
  simp only [Config.validate, hopt, Config.check_version_supported_or_deprecated, hpv, hav,
    hgate, Bool.false_eq_true, if_false, hds, hdv, hle, if_true]

/-- C2 witness: the deprecated option of the test schema at product version
0.5.0 with the value abc (which would fail the integer datatype check)
fails with VersionDeprecated. -/
theorem deprecated_hard_failure_witness :
    cfgTest.config_options "conf.property.string.deprecated" = some optDeprecated ∧
    Version.le ⟨0, 4, 0⟩ ⟨0, 5, 0⟩ = true ∧
    i64FromStr "abc" = none ∧
    cfgTest.validate "0.5.0" "conf.property.string.deprecated" "abc"
      = .error (.VersionDeprecated "conf.property.string.deprecated" "0.5.0" "0.4.0") :=
  ⟨rfl, rfl, rfl,
    deprecated_hard_failure cfgTest "0.5.0" "conf.property.string.deprecated" "abc" "0.4.0"
      optDeprecated ⟨0, 5, 0⟩ ⟨0, 1, 0⟩ ⟨0, 4, 0⟩ rfl rfl rfl rfl rfl rfl rfl⟩

/-- C3: for an indexed option with parseable as_of_version A and a parseable
product_version, validate fails with VersionNotSupported (carrying option
name, product version and required version) exactly when the product version
is strictly below A; when it is not, no VersionNotSupported error is ever
returned, whatever the later stages do. -/
theorem version_gate_not_supported_iff (cfg : Config) (pvs name value : String)
    (opt : ConfigOption) (pv av : Version)
    (hopt : cfg.config_options name = some opt)
    (hpv : Version.parse pvs = some pv)
    (hav : Version.parse opt.as_of_version = some av) :
    (Version.lt pv av = true →
      cfg.validate pvs name value
        = .error (.VersionNotSupported name pv.toString av.toString)) ∧
    (Version.lt pv av = false →
      ∀ a b c, cfg.validate pvs name value ≠ .error (.VersionNotSupported a b c)) := by
  constructor
  · intro hlt
    simp only [Config.validate, hopt, Config.check_version_supported_or_deprecated, hpv, hav,
      hlt, if_true]
  · intro hlt a b c hcontra
    have hshape : ∀ e, cfg.validate pvs name value = .error e → isVNS e = false := by
      intro e h
      simp only [Config.validate, hopt] at h
      split at h
      · next e2 heq =>
        injection h with h2
        subst h2
        exact version_check_after_gate_not_vns hpv hav hlt heq
      · split at h
        · next e2 heq =>
          injection h with h2
          subst h2
          exact check_datatype_not_vns heq
        · split at h
          · next e2 heq =>
            injection h with h2
            subst h2
            exact check_allowed_values_not_vns heq
          · exact Except.noConfusion h
    have hfalse := hshape _ hcontra
    simp [isVNS] at hfalse

/-- C3 witness: the port option (as of 0.5.0) at product version 0.1.0. -/
theorem version_gate_not_supported_iff_witness :
    cfgTest.config_options "ENV_VAR_INTEGER_PORT_MIN_MAX" = some optPort ∧
    Version.parse "0.1.0" = some ⟨0, 1, 0⟩ ∧
    Version.parse optPort.as_of_version = some ⟨0, 5, 0⟩ ∧
    Version.lt ⟨0, 1, 0⟩ ⟨0, 5, 0⟩ = true ∧
    cfgTest.validate "0.1.0" "ENV_VAR_INTEGER_PORT_MIN_MAX" "1000"
      = .error (.VersionNotSupported "ENV_VAR_INTEGER_PORT_MIN_MAX" "0.1.0" "0.5.0") :=
  ⟨rfl, rfl, rfl, rfl,
    (version_gate_not_supported_iff cfgTest "0.1.0" "ENV_VAR_INTEGER_PORT_MIN_MAX" "1000"
      optPort ⟨0, 1, 0⟩ ⟨0, 5, 0⟩ rfl rfl rfl).1 rfl⟩

/-- C5 counterexample: on a Bool option the empty value fails with
ConfigValueMissing (the emptiness check precedes the parse), not with the
DatatypeMismatch error the claim requires for every non-parsing value. -/
theorem bool_empty_value_counterexample :
    cfgTest.config_options "ENV_VAR_BOOL" = some optBool ∧
    optBool.datatype = .Bool ∧
    boolFromStr "" = none ∧
    cfgTest.validate "1.0.0" "ENV_VAR_BOOL" "" = .error (.ConfigValueMissing "ENV_VAR_BOOL") ∧
    cfgTest.validate "1.0.0" "ENV_VAR_BOOL" ""
      ≠ .error (.DatatypeNotMatching "ENV_VAR_BOOL" "" "bool") :=
  ⟨rfl, rfl, rfl, rfl,
    fun h => Error.noConfusion (Except.error.inj h)⟩

/-- C5 (amended): for a Bool option past the version gate, an empty value
fails with ValueMissing; a non-empty value that does not parse as a boolean
literal fails with DatatypeMismatch recording the type name bool; a value
that parses as a boolean validates successfully provided the allowed-values
gate passes. -/
theorem bool_datatype_check (cfg : Config) (pvs name value : String) (opt : ConfigOption)
    (hopt : cfg.config_options name = some opt)
    (hdt : opt.datatype = .Bool)
    (hver : cfg.check_version_supported_or_deprecated name pvs opt.as_of_version
        opt.deprecated_since = .ok ()) :
    (value = "" → cfg.validate pvs name value = .error (.ConfigValueMissing name)) ∧
    (value ≠ "" → boolFromStr value = none →
      cfg.validate pvs name value = .error (.DatatypeNotMatching name value "bool")) ∧
    (∀ b, boolFromStr value = some b →
      Config.check_allowed_values name value opt.allowed_values = .ok () →
      cfg.validate pvs name value = .ok value) := by
  rw [validate_after_version cfg pvs name value opt hopt hver, hdt]
  refine ⟨?_, ?_, ?_⟩
  · intro hv
    subst hv
    rfl
  · intro hne hparse
    have hemp : value.isEmpty = false := by
      rw [Bool.eq_false_iff]
      intro habs
      exact hne ((String.isEmpty_iff value).mp habs)
    simp only [Config.check_datatype, Config.check_datatype_scalar, Config.parse, boolScalar,
      hemp, Bool.false_eq_true, if_false, hparse]
  · intro b hparse hallow
    have hemp : value.isEmpty = false := by
      rw [Bool.eq_false_iff]
      intro habs
      rw [(String.isEmpty_iff value).mp habs] at hparse
      exact Option.noConfusion hparse
    simp only [Config.check_datatype, Config.check_datatype_scalar, Config.parse, boolScalar,
      hemp, Bool.false_eq_true, if_false, hparse, Config.check_bound, hallow]

/-- C5 witness: a non-empty, non-boolean value on the Bool option. -/
theorem bool_datatype_check_witness :
    cfgTest.config_options "ENV_VAR_BOOL" = some optBool ∧
    boolFromStr "xyz" = none ∧
    cfgTest.validate "1.0.0" "ENV_VAR_BOOL" "xyz"
      = .error (.DatatypeNotMatching "ENV_VAR_BOOL" "xyz" "bool") :=
  ⟨rfl, rfl,
    (bool_datatype_check cfgTest "1.0.0" "ENV_VAR_BOOL" "xyz" optBool rfl rfl rfl).2.1
      (by decide) rfl⟩

/-- C7: an option name absent from the Option Index yields OptionNotFound
for every product version and value; since the result is exactly that error,
no other error of any kind is ever produced for unknown names. -/
theorem unknown_option_yields_not_found (cfg : Config) (pvs name value : String)
    (h : cfg.config_options name = none) :
    cfg.validate pvs name value = .error (.ConfigOptionNotFound name) := by
  simp only [Config.validate, h]

/-- C7 witness: an unknown name on the test engine, with an unparseable
product version and a value that would fail every later check. -/
theorem unknown_option_yields_not_found_witness :
    cfgTest.config_options "no.such.option" = none ∧
    cfgTest.validate "not-a-version" "no.such.option" "???"
      = .error (.ConfigOptionNotFound "no.such.option") :=
  ⟨rfl, unknown_option_yields_not_found cfgTest "not-a-version" "no.such.option" "???" rfl⟩

/-- C9: whenever validate succeeds, the returned value is exactly the input
option_value: every success path ends by returning the input unchanged. -/
theorem validate_ok_returns_input (cfg : Config) (pvs name value r : String)
    (h : cfg.validate pvs name value = .ok r) : r = value := by
  unfold Config.validate at h
  split at h
  · exact Except.noConfusion h
  · split at h
    · exact Except.noConfusion h
    · split at h
      · exact Except.noConfusion h
      · split at h
        · exact Except.noConfusion h
        · injection h with h2
          exact h2.symm

/-- C9 witness: a successful validation of the port option returns the
input text unchanged. -/
theorem validate_ok_returns_input_witness :
    cfgTest.validate "1.0.0" "ENV_VAR_INTEGER_PORT_MIN_MAX" "1000" = .ok "1000" ∧
    ("1000" : String) = "1000" :=
  ⟨rfl, validate_ok_returns_input cfgTest "1.0.0" "ENV_VAR_INTEGER_PORT_MIN_MAX" "1000"
    "1000" rfl⟩

/-- C4 counterexample: unit u resolves to a pattern whose full-match
language is exactly the word a (what the regex crate compiles for the
literal pattern a); the full value text xa does not match the pattern, yet
validate succeeds, because the source tests Regex::is_match, which accepts a
match of a proper substring of the value. -/
theorem full_text_match_counterexample :
    cfgLit.config_options "conf.property.string.plain" = some optPlainString ∧
    cfgLit.config_setting_units "u" = some (litRegex "a") ∧
    (litRegex "a").fullMatch "xa" = false ∧
    (litRegex "a").is_match "xa" = true ∧
    cfgLit.validate "1.0.0" "conf.property.string.plain" "xa" = .ok "xa" ∧
    cfgLit.validate "1.0.0" "conf.property.string.plain" "xa"
      ≠ .error (.DatatypeRegexNotMatching "conf.property.string.plain" "xa") :=
  ⟨rfl, rfl, rfl, rfl, rfl, fun h => Except.noConfusion h⟩

/-- C4 (amended): for a String-typed option past the version gate and a
non-empty value: a missing unit fails with UnitNotProvided; a unit absent
from the Unit Pattern Table fails with UnitNotFound naming option and unit;
otherwise validate fails with PatternMismatch exactly when the resolved
pattern matches nowhere inside the value (Rust Regex::is_match semantics):
a match of a substring of the value suffices, a full-text match is not
required. -/
theorem string_unit_checks (cfg : Config) (pvs name value : String) (opt : ConfigOption)
    (mn mx u : Option String) (au : Option (List String)) (du : Option String)
    (hopt : cfg.config_options name = some opt)
    (hdt : opt.datatype = .String mn mx u au du)
    (hver : cfg.check_version_supported_or_deprecated name pvs opt.as_of_version
        opt.deprecated_since = .ok ())
    (hne : value ≠ "") :
    (u = none → cfg.validate pvs name value = .error (.UnitNotProvided name)) ∧
    (∀ us, u = some us → cfg.config_setting_units us = none →
      cfg.validate pvs name value = .error (.UnitSettingNotFound name us)) ∧
    (∀ us r, u = some us → cfg.config_setting_units us = some r →
      ((r.is_match value = false →
        cfg.validate pvs name value = .error (.DatatypeRegexNotMatching name value)) ∧
      (r.is_match value = true →
        cfg.validate pvs name value ≠ .error (.DatatypeRegexNotMatching name value)))) := by
  rw [validate_after_version cfg pvs name value opt hopt hver, hdt]
  have hemp : value.isEmpty = false := by
    rw [Bool.eq_false_iff]
    intro habs
    exact hne ((String.isEmpty_iff value).mp habs)
  refine ⟨?_, ?_, ?_⟩
  · intro hu
    subst hu
    simp only [Config.check_datatype, Config.check_datatype_string, hemp, Bool.false_eq_true,
      if_false]
  · intro us hu hlook
    subst hu
    simp only [Config.check_datatype, Config.check_datatype_string, hemp, Bool.false_eq_true,
      if_false, hlook]
  · intro us r hu hlook
    subst hu
    constructor
    · intro hm
      simp only [Config.check_datatype, Config.check_datatype_string, hemp, Bool.false_eq_true,
        if_false, hlook, hm]
    · intro hm hcontra
      rcases check_allowed_values_cases name value opt.allowed_values with hca | ⟨l, _, hca⟩
      · simp only [Config.check_datatype, Config.check_datatype_string, hemp, Bool.false_eq_true,
          if_false, hlook, hm, if_true, hca] at hcontra
        exact Except.noConfusion hcontra
      · simp only [Config.check_datatype, Config.check_datatype_string, hemp, Bool.false_eq_true,
          if_false, hlook, hm, if_true, hca] at hcontra
        exact Error.noConfusion (Except.error.inj hcontra)

/-- C4 witness: unit u resolves to the literal pattern a; the value xb
contains no match of the pattern, so validate fails with PatternMismatch. -/
theorem string_unit_checks_witness :
    cfgLit.config_options "conf.property.string.plain" = some optPlainString ∧
    cfgLit.config_setting_units "u" = some (litRegex "a") ∧
    (litRegex "a").is_match "xb" = false ∧
    cfgLit.validate "1.0.0" "conf.property.string.plain" "xb"
      = .error (.DatatypeRegexNotMatching "conf.property.string.plain" "xb") :=
  ⟨rfl, rfl, rfl,
    ((string_unit_checks cfgLit "1.0.0" "conf.property.string.plain" "xb" optPlainString
      none none (some "u") none none rfl rfl rfl (by decide)).2.2 "u" (litRegex "a")
      rfl rfl).1 rfl⟩

/-- C6: for an Integer-typed option past the version gate: an empty value
fails with ValueMissing; a non-empty value not parsing as i64 fails with
DatatypeMismatch naming i64; a parsed value below a configured, parseable
min fails with OutOfBounds carrying the received value and the min as
expected bound; symmetrically for max once the min check passed; and a value
passing both bound checks (boundary values included, since the violation
predicates are strict) validates successfully provided the allowed-values
gate passes. -/
theorem integer_datatype_check (cfg : Config) (pvs name value : String) (opt : ConfigOption)
    (mn mx u : Option String) (au : Option (List String)) (du : Option String)
    (hopt : cfg.config_options name = some opt)
    (hdt : opt.datatype = .Integer mn mx u au du)
    (hver : cfg.check_version_supported_or_deprecated name pvs opt.as_of_version
        opt.deprecated_since = .ok ()) :
    (value = "" → cfg.validate pvs name value = .error (.ConfigValueMissing name)) ∧
    (value ≠ "" → i64FromStr value = none →
      cfg.validate pvs name value = .error (.DatatypeNotMatching name value "i64")) ∧
    (∀ v ms m, i64FromStr value = some v → mn = some ms → i64FromStr ms = some m → v < m →
      cfg.validate pvs name value
        = .error (.ConfigValueOutOfBounds name (toString v) (toString m))) ∧
    (∀ v xs x, i64FromStr value = some v →
      cfg.check_bound i64Scalar name v mn (Config.min_bound i64Scalar) = .ok v →
      mx = some xs → i64FromStr xs = some x → x < v →
      cfg.validate pvs name value
        = .error (.ConfigValueOutOfBounds name (toString v) (toString x))) ∧
    (∀ v, i64FromStr value = some v →
      cfg.check_bound i64Scalar name v mn (Config.min_bound i64Scalar) = .ok v →
      cfg.check_bound i64Scalar name v mx (Config.max_bound i64Scalar) = .ok v →
      Config.check_allowed_values name value opt.allowed_values = .ok () →
      cfg.validate pvs name value = .ok value) := by
  rw [validate_after_version cfg pvs name value opt hopt hver, hdt]
  refine ⟨?_, ?_, ?_, ?_, ?_⟩
  · intro hv
    subst hv
    rfl
  · intro hne hparse
    have hemp : value.isEmpty = false := by
      rw [Bool.eq_false_iff]
      intro habs
      exact hne ((String.isEmpty_iff value).mp habs)
    simp only [Config.check_datatype, Config.check_datatype_scalar, Config.parse, hemp,
      Bool.false_eq_true, if_false, show i64Scalar.fromStr = i64FromStr from rfl, hparse]
    rfl
  · intro v ms m hv hmn hm hlt
    have hemp : value.isEmpty = false := by
      rw [Bool.eq_false_iff]
      intro habs
      rw [(String.isEmpty_iff value).mp habs] at hv
      exact Option.noConfusion hv
    have hb : Config.min_bound i64Scalar v m = true := decide_eq_true hlt
    simp only [Config.check_datatype,
      check_datatype_scalar_parse_some cfg i64Scalar name value mn mx v hemp hv]
    simp only [hmn, check_bound_some cfg i64Scalar name v m ms _ hm]
    rw [if_pos hb]
    rfl
  · intro v xs x hv hminok hmx hx hgt
    have hemp : value.isEmpty = false := by
      rw [Bool.eq_false_iff]
      intro habs
      rw [(String.isEmpty_iff value).mp habs] at hv
      exact Option.noConfusion hv
    have hb : Config.max_bound i64Scalar v x = true := decide_eq_true hgt
    simp only [Config.check_datatype,
      check_datatype_scalar_parse_some cfg i64Scalar name value mn mx v hemp hv]
    simp only [hminok]
    simp only [hmx, check_bound_some cfg i64Scalar name v x xs _ hx]
    rw [if_pos hb]
    rfl
  · intro v hv hminok hmaxok hallow
    have hemp : value.isEmpty = false := by
      rw [Bool.eq_false_iff]
      intro habs
      rw [(String.isEmpty_iff value).mp habs] at hv
      exact Option.noConfusion hv
    simp only [Config.check_datatype,
      check_datatype_scalar_parse_some cfg i64Scalar name value mn mx v hemp hv, hminok,
      hmaxok, hallow]

/-- C6 witness: the port option (min 0, max 65535) on the spec's example
inputs; the value -1 case is obtained from the theorem. -/
theorem integer_datatype_check_witness :
    cfgTest.config_options "ENV_VAR_INTEGER_PORT_MIN_MAX" = some optPort ∧
    i64FromStr "-1" = some (-1) ∧
    i64FromStr "0" = some 0 ∧
    ((-1 : Int) < 0) ∧
    cfgTest.validate "1.0.0" "ENV_VAR_INTEGER_PORT_MIN_MAX" "-1"
      = .error (.ConfigValueOutOfBounds "ENV_VAR_INTEGER_PORT_MIN_MAX" "-1" "0") ∧
    cfgTest.validate "1.0.0" "ENV_VAR_INTEGER_PORT_MIN_MAX" "1000" = .ok "1000" ∧
    cfgTest.validate "1.0.0" "ENV_VAR_INTEGER_PORT_MIN_MAX" "abc"
      = .error (.DatatypeNotMatching "ENV_VAR_INTEGER_PORT_MIN_MAX" "abc" "i64") ∧
    cfgTest.validate "1.0.0" "ENV_VAR_INTEGER_PORT_MIN_MAX" "100000"
      = .error (.ConfigValueOutOfBounds "ENV_VAR_INTEGER_PORT_MIN_MAX" "100000" "65535") :=
  ⟨rfl, rfl, rfl, by decide,
    (integer_datatype_check cfgTest "1.0.0" "ENV_VAR_INTEGER_PORT_MIN_MAX" "-1" optPort
      (some "0") (some "65535") (some "port") none none rfl rfl rfl).2.2.1 (-1) "0" 0
      rfl rfl rfl (by decide),
    rfl, rfl, rfl⟩

/-- C8: past the version and datatype stages, validate fails with
NotInAllowedValues carrying the option name, the rejected value and the full
allow-list exactly when a present, non-empty allow-list does not contain the
value; an absent or empty allow-list (or a member value) lets every value
through to success. -/
theorem allowed_values_gate (cfg : Config) (pvs name value : String) (opt : ConfigOption)
    (hopt : cfg.config_options name = some opt)
    (hver : cfg.check_version_supported_or_deprecated name pvs opt.as_of_version
        opt.deprecated_since = .ok ())
    (hdt : cfg.check_datatype name value opt.datatype = .ok ()) :
    (∀ l, opt.allowed_values = some l → l ≠ [] → value ∉ l →
      cfg.validate pvs name value
        = .error (.ConfigValueNotInAllowedValues name value l)) ∧
    ((opt.allowed_values = none ∨ opt.allowed_values = some [] ∨
        ∃ l, opt.allowed_values = some l ∧ value ∈ l) →
      cfg.validate pvs name value = .ok value) := by
  rw [validate_after_version cfg pvs name value opt hopt hver, hdt]
  constructor
  · intro l hl hne hnotmem
    have h1 : l.isEmpty = false := by
      cases l with
      | nil => exact absurd rfl hne
      | cons a t => rfl
    have h2 : l.contains value = false := by
      rw [← Bool.not_eq_true]
      intro hc
      exact hnotmem (List.elem_iff.mp hc)
    simp only [Config.check_allowed_values, hl, h1, h2]
    rfl
  · intro hcase
    rcases hcase with hn | he | ⟨l, hl, hmem⟩
    · simp only [Config.check_allowed_values, hn]
    · simp only [Config.check_allowed_values, he]
      rfl
    · have hc : l.contains value = true := List.elem_iff.mpr hmem
      simp only [Config.check_allowed_values, hl, hc, Bool.not_true, Bool.and_false,
        Bool.false_eq_true, if_false]

/-- C8 witness: the allow-list option of the test schema, with the value abc
(not a member) and the value allowed_value1 (a member). -/
theorem allowed_values_gate_witness :
    cfgLit.config_options "ENV_VAR_ALLOWED_VALUES" = some optAllowed ∧
    optAllowed.allowed_values = some ["allowed_value1", "allowed_value2", "allowed_value3"] ∧
    cfgLit.validate "0.5.0" "ENV_VAR_ALLOWED_VALUES" "abc"
      = .error (.ConfigValueNotInAllowedValues "ENV_VAR_ALLOWED_VALUES" "abc"
          ["allowed_value1", "allowed_value2", "allowed_value3"]) ∧
    cfgLit.validate "0.5.0" "ENV_VAR_ALLOWED_VALUES" "allowed_value1" = .ok "allowed_value1" :=
  ⟨rfl, rfl,
    (allowed_values_gate cfgLit "0.5.0" "ENV_VAR_ALLOWED_VALUES" "abc" optAllowed rfl rfl
      rfl).1 ["allowed_value1", "allowed_value2", "allowed_value3"] rfl (by decide)
      (by decide),
    rfl⟩

theorem getLast?_or_cons {α : Type} (a : α) (l : List α) :
    (a :: l).getLast? = l.getLast?.or (some a) := by
  induction l generalizing a with
  | nil => rfl
  | cons b t ih =>
    rw [List.getLast?_cons_cons, ih b]
    cases t.getLast? <;> rfl

theorem foldl_insert_names (o : ConfigOption) (names : List OptionName)
    (m : HMap ConfigOption) (aname : String) :
    (names.foldl (fun m n => HMap.insert m n.name o) m) aname
      = if names.any (fun n => n.name == aname) then some o else m aname := by
  induction names generalizing m with
  | nil => rfl
  | cons n rest ih =>
    rw [List.foldl_cons, ih, List.any_cons]
    by_cases h : n.name = aname
    · simp [HMap.insert, h]
    · simp [HMap.insert, h, Ne.symm h]

theorem foldl_insert_options (options : List ConfigOption) (m : HMap ConfigOption)
    (aname : String) :
    (options.foldl
        (fun m config_option =>
          config_option.option_names.foldl
            (fun m option_name => HMap.insert m option_name.name config_option) m)
        m) aname
      = ((options.filter (optionMentions aname)).getLast?).or (m aname) := by
  induction options generalizing m with
  | nil => rfl
  | cons o rest ih =>
    rw [List.foldl_cons, ih, foldl_insert_names, List.filter_cons]
    by_cases h : optionMentions aname o = true
    · rw [if_pos h, if_pos, getLast?_or_cons]
      · cases (rest.filter (optionMentions aname)).getLast? <;> rfl
      · exact of_decide_eq_true (by rw [decide_eq_true_eq]; exact h)
    · rw [if_neg h, if_neg]
      intro habs
      exact h (of_decide_eq_true (decide_eq_true habs))

/-- C10: after successful construction, the Option Index maps every alias name
to the definition of the last option (in schema-document order) whose
option_names list it; on an alias shared by two distinct options the
later definition silently overwrites the earlier one. -/
theorem alias_index_last_write_wins (compile : String → Option Regex) (root : ConfigItem)
    (aname : String) :
    (Config.new compile root).map (fun cfg => cfg.config_options aname)
      = (Config.new compile root).map
          (fun _ => (root.config_options.filter (optionMentions aname)).getLast?) := by
  unfold Config.new
  cases hu : buildUnits compile root.config_settings.unit HMap.empty with
  | error e => rfl
  | ok units =>
    simp only [Except.map, foldl_insert_options]
    cases (root.config_options.filter (optionMentions aname)).getLast? <;> rfl

end ProductConfig
